import Mathlib

/-
Shallow embedding of arch/arm/mach-omap2/prm2xxx_3xxx.c (OMAP2/3 PRM module
functions).

Modelling conventions:
- 32-bit machine words are `Nat`, with masking/complement made explicit where
  the C code relies on 32-bit two's-complement behaviour (`compl32`).
- The memory-mapped PRM register file is a function `Int → Nat` from the
  address offset `module + idx` (relative to `prm_base`) to the register
  value, together with a trace of the software-issued writes, in order
  (`PrmState`).  Reads have no effect; writes update the register file and
  append to the trace.
- The asynchronous hardware evolution of the reset-status register during the
  deassert poll loop is an oracle `hw : Nat → Nat` giving the RM_RSTST
  register contents observed at poll iteration `i`; hardware changes do not
  appear in the software write trace (`hwSet`).
- The CPU-identification predicates are an opaque collaborator, modelled as a
  record of booleans (`Chip`).
- `__ffs` (find first set bit) is undefined in C for a zero argument, so the
  embedding gives it type `Option Nat`; fallible computations built on it
  return `Option`.
-/

/-- Bitwise complement of a 32-bit word, as the C expression `~mask` computed
on a `u32`: for `m < 2 ^ 32` this flips exactly bits 0..31. -/
def compl32 (m : Nat) : Nat := m ^^^ 0xffffffff

/-- Linux errno value used as `-EINVAL`. -/
def EINVAL : Int := 22

/-- Linux errno value used as `-EEXIST`. -/
def EEXIST : Int := 17

/-- Linux errno value used as `-EBUSY`. -/
def EBUSY : Int := 16

/-- Modelled from the spec: register-index of the reset-control register
(`OMAP2_RM_RSTCTRL`, from the external register-map header, which owns the
exact offsets).  Only its distinctness from `OMAP2_RM_RSTST` matters here. -/
def OMAP2_RM_RSTCTRL : Int := 0x50

/-- Modelled from the spec: register-index of the reset-status register
(`OMAP2_RM_RSTST`, from the external register-map header). -/
def OMAP2_RM_RSTST : Int := 0x58

/-- Modelled from the spec: the fixed maximum iteration budget for the
hardreset-completion poll (`MAX_MODULE_HARDRESET_WAIT`, a collaborator-provided
constant from plat/prcm.h). -/
def MAX_MODULE_HARDRESET_WAIT : Nat := 10000

/-- Modelled from the spec: PRM submodule offset of the OCP module, owned by
the external register-map definitions. -/
def OCP_MOD : Int := 0x300

/-- Modelled from the spec: offset of the PRM_IRQSTATUS_MPU register inside
the OCP module, owned by the external register-map definitions. -/
def OMAP3_PRM_IRQSTATUS_MPU_OFFSET : Int := 0x18

/-- Software-visible state of the PRM register space: the register file
(indexed by the address offset `module + idx`) and the ordered trace of
software writes `(address, value)`. -/
structure PrmState where
  regs : Int → Nat
  writes : List (Int × Nat)

/-- C `omap2_prm_read_mod_reg`: read the 32-bit register at
`prm_base + module + idx`. -/
def omap2_prm_read_mod_reg (s : PrmState) (module idx : Int) : Nat :=
  s.regs (module + idx)

/-- C `omap2_prm_write_mod_reg`: write `val` to the register at
`prm_base + module + idx` (recorded in the write trace). -/
def omap2_prm_write_mod_reg (s : PrmState) (val : Nat) (module idx : Int) :
    PrmState :=
  { regs := fun a => if a = module + idx then val else s.regs a
    writes := s.writes ++ [(module + idx, val)] }

/-- C `omap2_prm_rmw_mod_reg_bits`: read-modify-write a register in a PRM
module (caller must lock).  Returns the newly written value together with the
updated state. -/
def omap2_prm_rmw_mod_reg_bits (s : PrmState) (mask bits : Nat)
    (module idx : Int) : Nat × PrmState :=
  let v := omap2_prm_read_mod_reg s module idx
  let v := v &&& compl32 mask
  let v := v ||| bits
  (v, omap2_prm_write_mod_reg s v module idx)

/-- C `omap2_prm_set_mod_reg_bits`: thin wrapper `rmw(bits, bits, ...)`. -/
def omap2_prm_set_mod_reg_bits (s : PrmState) (bits : Nat) (module idx : Int) :
    Nat × PrmState :=
  omap2_prm_rmw_mod_reg_bits s bits bits module idx

/-- C `omap2_prm_clear_mod_reg_bits`: thin wrapper `rmw(bits, 0, ...)`. -/
def omap2_prm_clear_mod_reg_bits (s : PrmState) (bits : Nat)
    (module idx : Int) : Nat × PrmState :=
  omap2_prm_rmw_mod_reg_bits s bits 0x0 module idx

/-- Index of the lowest set bit of a positive number (count of trailing
zeros); returns 0 on 0, but that case is never exposed (see `__ffs`). -/
def ctz (x : Nat) : Nat :=
  if h : x = 0 then 0
  else if x % 2 = 1 then 0
  else 1 + ctz (x / 2)
decreasing_by exact Nat.div_lt_self (Nat.pos_of_ne_zero h) (by decide)

/-- C `__ffs` (index of the lowest set bit).  Its behaviour is undefined for
a zero argument, hence the `Option`. -/
def __ffs (x : Nat) : Option Nat :=
  if x = 0 then none else some (ctz x)

/-- C `omap2_prm_read_mod_bits_shift`: read a PRM register, AND it with `mask`,
and shift the result down to bit 0 by `__ffs mask`.  `none` exactly when the
shift amount `__ffs 0` is undefined. -/
def omap2_prm_read_mod_bits_shift (s : PrmState) (domain idx : Int)
    (mask : Nat) : Option Nat :=
  (__ffs mask).map
    (fun sh => ((omap2_prm_read_mod_reg s domain idx) &&& mask) >>> sh)

/-- The chip-identification collaborator: the two CPU-family predicates the
code consults. -/
structure Chip where
  cpu_is_omap24xx : Bool
  cpu_is_omap34xx : Bool

/-- C `omap2_prm_is_hardreset_asserted`: read the HW reset line state.
Returns 1/0 as the line is asserted or not, or `-EINVAL` on a non-OMAP2/3
chip.  The inner lookup never misses: the mask `1 <<< shift` is non-zero. -/
def omap2_prm_is_hardreset_asserted (chip : Chip) (s : PrmState)
    (prm_mod : Int) (shift : Nat) : Int :=
  if !(chip.cpu_is_omap24xx || chip.cpu_is_omap34xx) then -EINVAL
  else
    Int.ofNat ((omap2_prm_read_mod_bits_shift s prm_mod OMAP2_RM_RSTCTRL
      (1 <<< shift)).getD 0)

/-- C `omap2_prm_assert_hardreset`: set the reset-control bit via the RMW
primitive.  Returns 0 on success, `-EINVAL` on a non-OMAP2/3 chip. -/
def omap2_prm_assert_hardreset (chip : Chip) (s : PrmState) (prm_mod : Int)
    (shift : Nat) : Int × PrmState :=
  if !(chip.cpu_is_omap24xx || chip.cpu_is_omap34xx) then (-EINVAL, s)
  else
    let mask := 1 <<< shift
    (0, (omap2_prm_rmw_mod_reg_bits s mask mask prm_mod OMAP2_RM_RSTCTRL).2)

/-- The loop of the C macro `omap_test_timeout(cond, timeout, index)`:
starting from `i`, return the first index below `timeout` at which `cond`
holds, or `timeout` when none does. -/
def omap_test_timeout_loop (cond : Nat → Bool) (timeout i : Nat) : Nat :=
  if h : i < timeout then
    if cond i then i else omap_test_timeout_loop cond timeout (i + 1)
  else i
termination_by timeout - i
decreasing_by omega

/-- C macro `omap_test_timeout`: the final value of the loop index. -/
def omap_test_timeout (cond : Nat → Bool) (timeout : Nat) : Nat :=
  omap_test_timeout_loop cond timeout 0

/-- Hardware-side update of a register: the register file changes, but no
entry is added to the software write trace. -/
def hwSet (s : PrmState) (a : Int) (v : Nat) : PrmState :=
  { regs := fun x => if x = a then v else s.regs x
    writes := s.writes }

/-- C `omap2_prm_deassert_hardreset`: deassert a submodule hardreset line and
wait for the PRCM to signal completion.  `hw i` is the RM_RSTST register
contents the poll loop observes at iteration `i` (hardware owns that register
while the software polls).  Returns 0 on success, `-EINVAL` on a non-OMAP2/3
chip, `-EEXIST` when the line was already deasserted, `-EBUSY` on timeout. -/
def omap2_prm_deassert_hardreset (chip : Chip) (s : PrmState) (prm_mod : Int)
    (rst_shift st_shift : Nat) (hw : Nat → Nat) : Int × PrmState :=
  if !(chip.cpu_is_omap24xx || chip.cpu_is_omap34xx) then (-EINVAL, s)
  else
    let rst := 1 <<< rst_shift
    let st := 1 <<< st_shift
    if (omap2_prm_read_mod_bits_shift s prm_mod OMAP2_RM_RSTCTRL rst).getD 0
        = 0 then
      (-EEXIST, s)
    else
      let s1 := (omap2_prm_rmw_mod_reg_bits s 0xffffffff st prm_mod
        OMAP2_RM_RSTST).2
      let s2 := (omap2_prm_rmw_mod_reg_bits s1 rst 0 prm_mod
        OMAP2_RM_RSTCTRL).2
      let c := omap_test_timeout
        (fun i =>
          (omap2_prm_read_mod_bits_shift
            (hwSet s2 (prm_mod + OMAP2_RM_RSTST) (hw i))
            prm_mod OMAP2_RM_RSTST st).getD 0 != 0)
        MAX_MODULE_HARDRESET_WAIT
      (if c = MAX_MODULE_HARDRESET_WAIT then -EBUSY else 0, s2)

/- PRM VP -/

/-- C `struct omap3_prm_irq`: OMAP3 PRM IRQ register access description —
VP_TRANXDONE_ST and ABB_TRANXDONE_ST bitmasks in the PRM_IRQSTATUS_MPU
register (the latter only for OMAP3630). -/
structure omap3_prm_irq where
  vp_tranxdone_status : Nat
  abb_tranxdone_status : Nat

/-- Table index of the MPU voltage rail (`OMAP3_PRM_IRQ_VDD_MPU_ID`). -/
def OMAP3_PRM_IRQ_VDD_MPU_ID : Nat := 0

/-- Table index of the core voltage rail (`OMAP3_PRM_IRQ_VDD_CORE_ID`). -/
def OMAP3_PRM_IRQ_VDD_CORE_ID : Nat := 1

/-- Modelled from the spec: VP1 transaction-done status bitmask
(`OMAP3430_VP1_TRANXDONE_ST_MASK`, from the external register-map header). -/
def OMAP3430_VP1_TRANXDONE_ST_MASK : Nat := 1 <<< 15

/-- Modelled from the spec: VP2 transaction-done status bitmask
(`OMAP3430_VP2_TRANXDONE_ST_MASK`, from the external register-map header). -/
def OMAP3430_VP2_TRANXDONE_ST_MASK : Nat := 1 <<< 21

/-- Modelled from the spec: ABB LDO transaction-done status bitmask
(`OMAP3630_ABB_LDO_TRANXDONE_ST_MASK`, from the external register-map
header; OMAP3630 only). -/
def OMAP3630_ABB_LDO_TRANXDONE_ST_MASK : Nat := 1 <<< 26

/-- C `omap3_prm_irqs[]`: the compiled-in constant table, indexed by rail id.
The core entry gives no `abb_tranxdone_status` initializer in the C source, so
C designated-initializer semantics zero it. -/
def omap3_prm_irqs : List omap3_prm_irq :=
  [ { vp_tranxdone_status := OMAP3430_VP1_TRANXDONE_ST_MASK
      abb_tranxdone_status := OMAP3630_ABB_LDO_TRANXDONE_ST_MASK }
  , { vp_tranxdone_status := OMAP3430_VP2_TRANXDONE_ST_MASK
      abb_tranxdone_status := 0 } ]

/-- Array lookup `&omap3_prm_irqs[irq_id]`.  C array indexing out of range is
undefined; the claims only use the two valid rail ids. -/
def omap3_prm_irqs_get (irq_id : Nat) : omap3_prm_irq :=
  omap3_prm_irqs.getD irq_id ⟨0, 0⟩

/-- C `omap3_prm_vp_check_txdone`: read PRM_IRQSTATUS_MPU and mask it with the
rail's VP transaction-done status bitmask. -/
def omap3_prm_vp_check_txdone (s : PrmState) (irq_id : Nat) : Nat :=
  let irq := omap3_prm_irqs_get irq_id
  let irqstatus := omap2_prm_read_mod_reg s OCP_MOD
    OMAP3_PRM_IRQSTATUS_MPU_OFFSET
  irqstatus &&& irq.vp_tranxdone_status

/-- C `omap3_prm_vp_clear_txdone`: write the rail's VP transaction-done status
bitmask to PRM_IRQSTATUS_MPU (a write-1-to-clear register). -/
def omap3_prm_vp_clear_txdone (s : PrmState) (irq_id : Nat) : PrmState :=
  let irq := omap3_prm_irqs_get irq_id
  omap2_prm_write_mod_reg s irq.vp_tranxdone_status OCP_MOD
    OMAP3_PRM_IRQSTATUS_MPU_OFFSET

/-- C `omap36xx_prm_abb_check_txdone`: read PRM_IRQSTATUS_MPU and mask it
with the rail's ABB transaction-done status bitmask. -/
def omap36xx_prm_abb_check_txdone (s : PrmState) (irq_id : Nat) : Nat :=
  let irq := omap3_prm_irqs_get irq_id
  let irqstatus := omap2_prm_read_mod_reg s OCP_MOD
    OMAP3_PRM_IRQSTATUS_MPU_OFFSET
  irqstatus &&& irq.abb_tranxdone_status

/-- C `omap36xx_prm_abb_clear_txdone`: write the rail's ABB transaction-done
status bitmask to PRM_IRQSTATUS_MPU. -/
def omap36xx_prm_abb_clear_txdone (s : PrmState) (irq_id : Nat) : PrmState :=
  let irq := omap3_prm_irqs_get irq_id
  omap2_prm_write_mod_reg s irq.abb_tranxdone_status OCP_MOD
    OMAP3_PRM_IRQSTATUS_MPU_OFFSET

/-- Write-1-to-clear hardware interpretation of a software write to a status
register: bits written as 1 are cleared in the hardware register, other bits
keep their prior value. -/
def w1c (old written : Nat) : Nat := old &&& compl32 written

/- Multi-base register router (CONFIG_MACH_OMAP_LATONA variant) -/

/-- Base selector value for the default (CM) region. -/
def DEFAULT_BASE : Nat := 0x0

/-- Base selector value for the PRM region. -/
def PRM_BASE : Nat := 0x1

/-- Base selector value for the PRCM_MPU region (defined but not routed). -/
def PRCM_MPU_BASE : Nat := 0x2

/-- Base selector value for the secondary CM (CM2) region. -/
def CM2_BASE : Nat := 0x3

/-- Bit position of the base selector inside the encoded module value. -/
def BASE_ID_SHIFT : Nat := 13

/-- Mask of the true 13-bit module offset inside the encoded module value. -/
def MOD_MASK : Nat := 0x1FFF

/-- State of the three independently-based register regions the router can
dispatch to, each a register file indexed by `module + reg`. -/
structure PrcmState where
  prm : Int → Nat
  cm : Int → Nat
  cm2 : Int → Nat

/-- The C computation `abs(module) >> BASE_ID_SHIFT` extracting the base
selector from the encoded module value. -/
def cm_base_sel (module : Int) : Nat := module.natAbs >>> BASE_ID_SHIFT

/-- The C computation `module &= MOD_MASK`: the low 13 bits of the
two's-complement representation of `module`, i.e. `module` modulo `2 ^ 13`. -/
def cm_mod_off (module : Int) : Int := module % 8192

/-- C `cm_read_mod_reg`: decode the base selector, mask the module offset and
dispatch the read to the selected region; an unrecognized selector logs an
error and returns 0. -/
def cm_read_mod_reg (s : PrcmState) (module idx : Int) : Nat :=
  let base := cm_base_sel module
  let module := cm_mod_off module
  if base = PRM_BASE then s.prm (module + idx)
  else if base = CM2_BASE then s.cm2 (module + idx)
  else if base = DEFAULT_BASE then s.cm (module + idx)
  else 0

/-- C `cm_write_mod_reg`: decode the base selector, mask the module offset and
dispatch the write to the selected region; an unrecognized selector logs an
error and writes nothing. -/
def cm_write_mod_reg (s : PrcmState) (val : Nat) (module idx : Int) :
    PrcmState :=
  let base := cm_base_sel module
  let module := cm_mod_off module
  if base = PRM_BASE then
    { s with prm := fun a => if a = module + idx then val else s.prm a }
  else if base = CM2_BASE then
    { s with cm2 := fun a => if a = module + idx then val else s.cm2 a }
  else if base = DEFAULT_BASE then
    { s with cm := fun a => if a = module + idx then val else s.cm a }
  else s

/-- A concrete all-zero PRM register file with an empty write trace, used to
instantiate the theorems below on concrete inputs. -/
def prmZero : PrmState :=
  { regs := fun _ => 0, writes := [] }

/-- A concrete PRM register file whose reset-control register has bit 3 set,
with an empty write trace. -/
def prmRst3 : PrmState :=
  { regs := fun a => if a = OMAP2_RM_RSTCTRL then 1 <<< 3 else 0
    writes := [] }

/-- A concrete PRM register file with every register all-ones, used to
instantiate theorems whose conclusion must hold regardless of register
contents. -/
def prmOnes : PrmState :=
  { regs := fun _ => 0xffffffff, writes := [] }

/-- A concrete OMAP34xx chip descriptor. -/
def chip34 : Chip :=
  { cpu_is_omap24xx := false, cpu_is_omap34xx := true }

/-- A concrete unsupported chip descriptor. -/
def chipNone : Chip :=
  { cpu_is_omap24xx := false, cpu_is_omap34xx := false }

/- Helper lemmas -/

theorem ctz_two_pow (sh : Nat) : ctz (2 ^ sh) = sh := by
  induction sh with
  | zero =>
    rw [ctz]
    norm_num
  | succ n ih =>
    rw [ctz]
    have h0 : (2 : Nat) ^ (n + 1) ≠ 0 := by positivity
    rw [dif_neg h0]
    have h1 : 2 ^ (n + 1) % 2 = 0 := by
      rw [pow_succ]
      simp [Nat.mul_mod_left]
    rw [if_neg (by omega)]
    have h2 : 2 ^ (n + 1) / 2 = 2 ^ n := by
      rw [pow_succ]
      exact Nat.mul_div_cancel _ two_pos
    rw [h2, ih]
    omega

theorem ctz_one_shiftLeft (sh : Nat) : ctz (1 <<< sh) = sh := by
  rw [Nat.one_shiftLeft]
  exact ctz_two_pow sh

theorem ffs_one_shiftLeft (sh : Nat) : __ffs (1 <<< sh) = some sh := by
  rw [__ffs]
  rw [if_neg (by simp [Nat.one_shiftLeft])]
  rw [ctz_one_shiftLeft]

theorem testBit_ffffffff (i : Nat) :
    (0xffffffff : Nat).testBit i = decide (i < 32) := by
  have h : (0xffffffff : Nat) = 2 ^ 32 - 1 := by norm_num
  rw [h, Nat.testBit_two_pow_sub_one]

theorem testBit_compl32 (m i : Nat) :
    (compl32 m).testBit i = ((m.testBit i).xor (decide (i < 32))) := by
  rw [compl32, Nat.testBit_xor, testBit_ffffffff]

theorem and_one_shiftLeft_shiftRight (x sh : Nat) :
    (x &&& (1 <<< sh)) >>> sh = (x.testBit sh).toNat := by
  rw [Nat.one_shiftLeft, Nat.and_two_pow, Nat.shiftRight_eq_div_pow]
  exact Nat.mul_div_cancel _ (Nat.pos_pow_of_pos sh (by decide))

theorem read_mod_bits_shift_one (s : PrmState) (dom idx : Int) (sh : Nat) :
    omap2_prm_read_mod_bits_shift s dom idx (1 <<< sh) =
      some (((s.regs (dom + idx)).testBit sh).toNat) := by
  rw [omap2_prm_read_mod_bits_shift, ffs_one_shiftLeft, Option.map_some']
  rw [omap2_prm_read_mod_reg, and_one_shiftLeft_shiftRight]

theorem toNat_bne_zero (b : Bool) : (b.toNat != 0) = b := by
  cases b <;> rfl

theorem toNat_eq_zero_iff (b : Bool) : b.toNat = 0 ↔ b = false := by
  cases b <;> simp

theorem omap_test_timeout_loop_lt (cond : Nat → Bool) (t : Nat) :
    ∀ n i, t - i ≤ n → (∃ j, i ≤ j ∧ j < t ∧ cond j = true) →
      omap_test_timeout_loop cond t i < t := by
  intro n
  induction n with
  | zero =>
    intro i hn hex
    obtain ⟨j, hij, hjt, _⟩ := hex
    omega
  | succ n ih =>
    intro i hn hex
    obtain ⟨j, hij, hjt, hcj⟩ := hex
    have hit : i < t := by omega
    rw [omap_test_timeout_loop, dif_pos hit]
    by_cases hc : cond i = true
    · rw [if_pos hc]
      exact hit
    · rw [if_neg hc]
      apply ih
      · omega
      · have hij1 : i + 1 ≤ j := by
          rcases Nat.lt_or_ge i j with h | h
          · omega
          · have hji : j = i := by omega
            rw [hji] at hcj
            exact absurd hcj hc
        exact ⟨j, hij1, hjt, hcj⟩

theorem omap_test_timeout_loop_eq_timeout (cond : Nat → Bool) (t : Nat) :
    ∀ n i, t - i ≤ n → i ≤ t → (∀ j, i ≤ j → j < t → cond j = false) →
      omap_test_timeout_loop cond t i = t := by
  intro n
  induction n with
  | zero =>
    intro i hn hle _
    have hit : i = t := by omega
    rw [omap_test_timeout_loop, dif_neg (by omega)]
    exact hit
  | succ n ih =>
    intro i hn hle hall
    rw [omap_test_timeout_loop]
    by_cases hit : i < t
    · rw [dif_pos hit]
      have hc : cond i = false := hall i (Nat.le_refl i) hit
      rw [if_neg (by simp [hc])]
      apply ih
      · omega
      · omega
      · intro j hj hjt
        exact hall j (by omega) hjt
    · rw [dif_neg hit]
      omega

theorem omap_test_timeout_lt (cond : Nat → Bool) (t : Nat)
    (hex : ∃ j, j < t ∧ cond j = true) : omap_test_timeout cond t < t := by
  obtain ⟨j, hjt, hcj⟩ := hex
  exact omap_test_timeout_loop_lt cond t t 0 (by omega)
    ⟨j, Nat.zero_le j, hjt, hcj⟩

theorem omap_test_timeout_eq (cond : Nat → Bool) (t : Nat)
    (hall : ∀ j, j < t → cond j = false) : omap_test_timeout cond t = t :=
  omap_test_timeout_loop_eq_timeout cond t t 0 (by omega) (Nat.zero_le t)
    (fun j _ hjt => hall j hjt)

/- Claim theorems -/

/-- C2: for every `mask` and `bits` with `bits` a subset of `mask` (and `mask`
a 32-bit word), `omap2_prm_rmw_mod_reg_bits` leaves the register with its
masked bits equal to `bits` and all bits outside `mask` equal to their
pre-call value, and returns exactly the newly written value. -/
theorem omap2_prm_rmw_mod_reg_bits_spec (s : PrmState) (mask bits : Nat)
    (module idx : Int) (hmask : mask < 2 ^ 32) (hsub : bits &&& mask = bits) :
    (omap2_prm_rmw_mod_reg_bits s mask bits module idx).1 =
      (omap2_prm_rmw_mod_reg_bits s mask bits module idx).2.regs (module + idx)
  ∧ (omap2_prm_rmw_mod_reg_bits s mask bits module idx).2.regs (module + idx)
      &&& mask = bits
  ∧ (omap2_prm_rmw_mod_reg_bits s mask bits module idx).2.regs (module + idx)
      &&& compl32 mask = s.regs (module + idx) &&& compl32 mask := by
  have hwrite : (omap2_prm_rmw_mod_reg_bits s mask bits module idx).2.regs
      (module + idx)
      = ((s.regs (module + idx)) &&& compl32 mask) ||| bits := by
    simp [omap2_prm_rmw_mod_reg_bits, omap2_prm_write_mod_reg,
      omap2_prm_read_mod_reg]
  refine ⟨?_, ?_, ?_⟩
  · rw [hwrite]
    simp [omap2_prm_rmw_mod_reg_bits, omap2_prm_read_mod_reg]
  · rw [hwrite]
    apply Nat.eq_of_testBit_eq
    intro i
    have hbi : (bits.testBit i && mask.testBit i) = bits.testBit i := by
      have h := congrArg (fun x => Nat.testBit x i) hsub
      simp only [Nat.testBit_and] at h
      exact h
    by_cases h32 : i < 32
    · have hd : (decide (i < 32)) = true := decide_eq_true h32
      revert hbi
      simp only [Nat.testBit_or, Nat.testBit_and, testBit_compl32, hd]
      cases hm : mask.testBit i <;>
        cases hb : bits.testBit i <;>
        cases hv : (s.regs (module + idx)).testBit i <;> simp
    · have hm : mask.testBit i = false := by
        apply Nat.testBit_eq_false_of_lt
        calc mask < 2 ^ 32 := hmask
          _ ≤ 2 ^ i := Nat.pow_le_pow_right (by decide) (by omega)
      have hb : bits.testBit i = false := by
        rw [hm] at hbi
        simpa using hbi.symm
      have hd : (decide (i < 32)) = false := decide_eq_false h32
      simp only [Nat.testBit_or, Nat.testBit_and, testBit_compl32, hd, hm, hb]
      simp
  · rw [hwrite]
    apply Nat.eq_of_testBit_eq
    intro i
    have hbi : (bits.testBit i && mask.testBit i) = bits.testBit i := by
      have h := congrArg (fun x => Nat.testBit x i) hsub
      simp only [Nat.testBit_and] at h
      exact h
    by_cases h32 : i < 32
    · have hd : (decide (i < 32)) = true := decide_eq_true h32
      revert hbi
      simp only [Nat.testBit_or, Nat.testBit_and, testBit_compl32, hd]
      cases hm : mask.testBit i <;>
        cases hb : bits.testBit i <;>
        cases hv : (s.regs (module + idx)).testBit i <;> simp
    · have hm : mask.testBit i = false := by
        apply Nat.testBit_eq_false_of_lt
        calc mask < 2 ^ 32 := hmask
          _ ≤ 2 ^ i := Nat.pow_le_pow_right (by decide) (by omega)
      have hb : bits.testBit i = false := by
        rw [hm] at hbi
        simpa using hbi.symm
      have hd : (decide (i < 32)) = false := decide_eq_false h32
      simp only [Nat.testBit_or, Nat.testBit_and, testBit_compl32, hd, hm, hb]
      simp

/-- Witness for C2: the RMW frame property at a concrete state and inputs. -/
theorem omap2_prm_rmw_mod_reg_bits_spec_witness :
    (omap2_prm_rmw_mod_reg_bits prmZero 0xF0 0x30 0 0).1 =
      (omap2_prm_rmw_mod_reg_bits prmZero 0xF0 0x30 0 0).2.regs (0 + 0)
  ∧ (omap2_prm_rmw_mod_reg_bits prmZero 0xF0 0x30 0 0).2.regs (0 + 0)
      &&& 0xF0 = 0x30
  ∧ (omap2_prm_rmw_mod_reg_bits prmZero 0xF0 0x30 0 0).2.regs (0 + 0)
      &&& compl32 0xF0 = prmZero.regs (0 + 0) &&& compl32 0xF0 :=
  omap2_prm_rmw_mod_reg_bits_spec prmZero 0xF0 0x30 0 0 (by decide) (by decide)

/-- C4: on a supported chip generation, calling `omap2_prm_deassert_hardreset`
when the reset-control bit is already 0 returns `-EEXIST` and performs no
register write: the returned state is the pre-call state, so every register
and the write trace retain their pre-call value. -/
theorem omap2_prm_deassert_hardreset_already (chip : Chip) (s : PrmState)
    (prm_mod : Int) (rst_shift st_shift : Nat) (hw : Nat → Nat)
    (hchip : (chip.cpu_is_omap24xx || chip.cpu_is_omap34xx) = true)
    (hclear : (s.regs (prm_mod + OMAP2_RM_RSTCTRL)).testBit rst_shift
      = false) :
    omap2_prm_deassert_hardreset chip s prm_mod rst_shift st_shift hw
      = (-EEXIST, s) := by
  simp [omap2_prm_deassert_hardreset, hchip, read_mod_bits_shift_one, hclear]

/-- Witness for C4: already-deasserted return at a concrete chip and state. -/
theorem omap2_prm_deassert_hardreset_already_witness :
    omap2_prm_deassert_hardreset chip34 prmZero 0 3 5 (fun _ => 0)
      = (-EEXIST, prmZero) :=
  omap2_prm_deassert_hardreset_already chip34 prmZero 0 3 5 (fun _ => 0)
    (by decide) (by decide)

/-- C6: each of the three hardreset operations checks the chip-generation
predicate first: on an unsupported chip generation it returns `-EINVAL` and
touches no register — the state comes back unchanged, and the result is the
same for every register file `s`. -/
theorem omap2_prm_hardreset_invalid_chip (chip : Chip) (s : PrmState)
    (prm_mod : Int) (shift rst_shift st_shift : Nat) (hw : Nat → Nat)
    (hchip : (chip.cpu_is_omap24xx || chip.cpu_is_omap34xx) = false) :
    omap2_prm_is_hardreset_asserted chip s prm_mod shift = -EINVAL
  ∧ omap2_prm_assert_hardreset chip s prm_mod shift = (-EINVAL, s)
  ∧ omap2_prm_deassert_hardreset chip s prm_mod rst_shift st_shift hw
      = (-EINVAL, s) := by
  refine ⟨?_, ?_, ?_⟩ <;>
    simp [omap2_prm_is_hardreset_asserted, omap2_prm_assert_hardreset,
      omap2_prm_deassert_hardreset, hchip]

/-- Witness for C6: the `-EINVAL` returns at a concrete unsupported chip. -/
theorem omap2_prm_hardreset_invalid_chip_witness :
    omap2_prm_is_hardreset_asserted chipNone prmOnes 0 3 = -EINVAL
  ∧ omap2_prm_assert_hardreset chipNone prmOnes 0 3 = (-EINVAL, prmOnes)
  ∧ omap2_prm_deassert_hardreset chipNone prmOnes 0 3 5 (fun _ => 0)
      = (-EINVAL, prmOnes) :=
  omap2_prm_hardreset_invalid_chip chipNone prmOnes 0 3 3 5 (fun _ => 0)
    (by decide)

/-- C9: for every rail whose table entry leaves the ABB transaction-done mask
zero (the core rail), `omap36xx_prm_abb_check_txdone` returns 0 regardless of
the interrupt-status register's contents. -/
theorem omap36xx_prm_abb_check_txdone_zero_mask (s : PrmState) (irq_id : Nat)
    (habb : (omap3_prm_irqs_get irq_id).abb_tranxdone_status = 0) :
    omap36xx_prm_abb_check_txdone s irq_id = 0 := by
  simp [omap36xx_prm_abb_check_txdone, habb]

/-- Witness for C9: the core rail reports "not done" even with an all-ones
interrupt-status register. -/
theorem omap36xx_prm_abb_check_txdone_zero_mask_witness :
    omap36xx_prm_abb_check_txdone prmOnes OMAP3_PRM_IRQ_VDD_CORE_ID = 0 :=
  omap36xx_prm_abb_check_txdone_zero_mask prmOnes OMAP3_PRM_IRQ_VDD_CORE_ID
    (by decide)

/-- C5 counterexample: with `mask = 0` the helper's result is the outcome of
the undefined shift-amount computation `__ffs 0` (no defined value in the
model), not a guarded return of 0: the code has no zero-mask guard. -/
theorem omap2_prm_read_mod_bits_shift_zero_mask_cex :
    __ffs 0 = none
  ∧ omap2_prm_read_mod_bits_shift prmOnes 0 0 0 = none := by
  exact ⟨rfl, rfl⟩

/-- C5 (amended): `omap2_prm_read_mod_bits_shift` does not guard against a
zero mask — it unconditionally derives the shift amount from find-first-set
of the mask, which is undefined at zero; for every non-zero mask it returns
the masked register value shifted down by the mask's lowest set bit. -/
theorem omap2_prm_read_mod_bits_shift_nonzero_mask (s : PrmState)
    (domain idx : Int) (mask : Nat) (hmask : mask ≠ 0) :
    omap2_prm_read_mod_bits_shift s domain idx mask
      = some ((s.regs (domain + idx) &&& mask) >>> ctz mask) := by
  rw [omap2_prm_read_mod_bits_shift, __ffs, if_neg hmask, Option.map_some']
  rw [omap2_prm_read_mod_reg]

/-- Witness for C5's amended claim: the helper evaluated at a non-zero mask. -/
theorem omap2_prm_read_mod_bits_shift_nonzero_mask_witness :
    omap2_prm_read_mod_bits_shift prmOnes 0 0 0xF0
      = some ((prmOnes.regs (0 + 0) &&& 0xF0) >>> ctz 0xF0) :=
  omap2_prm_read_mod_bits_shift_nonzero_mask prmOnes 0 0 0xF0 (by decide)

theorem and_compl32_and_self (v m : Nat) (hm : m < 2 ^ 32) :
    (v &&& compl32 m) &&& m = 0 := by
  apply Nat.eq_of_testBit_eq
  intro i
  simp only [Nat.testBit_and, testBit_compl32, Nat.zero_testBit]
  by_cases h32 : i < 32
  · have hd : (decide (i < 32)) = true := decide_eq_true h32
    rw [hd]
    cases m.testBit i <;> cases v.testBit i <;> simp
  · have hmi : m.testBit i = false := by
      apply Nat.testBit_eq_false_of_lt
      calc m < 2 ^ 32 := hm
        _ ≤ 2 ^ i := Nat.pow_le_pow_right (by decide) (by omega)
    simp [hmi]

/-- C7: for every valid RailId, `omap3_prm_vp_check_txdone` returns non-zero
exactly when the rail's VP status bitmask has a non-zero intersection with
the interrupt-status register; `omap3_prm_vp_clear_txdone` writes exactly the
rail's VP bitmask to that register, and — under write-1-to-clear hardware
semantics of the written value, with no intervening hardware event — an
immediately following check on the same rail returns 0. -/
theorem omap3_prm_vp_txdone_spec (s : PrmState) (irq_id : Nat)
    (hid : irq_id = OMAP3_PRM_IRQ_VDD_MPU_ID
      ∨ irq_id = OMAP3_PRM_IRQ_VDD_CORE_ID) :
    (omap3_prm_vp_check_txdone s irq_id ≠ 0 ↔
      s.regs (OCP_MOD + OMAP3_PRM_IRQSTATUS_MPU_OFFSET)
        &&& (omap3_prm_irqs_get irq_id).vp_tranxdone_status ≠ 0)
  ∧ (omap3_prm_vp_clear_txdone s irq_id).writes = s.writes ++
      [(OCP_MOD + OMAP3_PRM_IRQSTATUS_MPU_OFFSET,
        (omap3_prm_irqs_get irq_id).vp_tranxdone_status)]
  ∧ omap3_prm_vp_check_txdone
      (hwSet (omap3_prm_vp_clear_txdone s irq_id)
        (OCP_MOD + OMAP3_PRM_IRQSTATUS_MPU_OFFSET)
        (w1c (s.regs (OCP_MOD + OMAP3_PRM_IRQSTATUS_MPU_OFFSET))
          (omap3_prm_irqs_get irq_id).vp_tranxdone_status))
      irq_id = 0 := by
  refine ⟨Iff.rfl, ?_, ?_⟩
  · simp [omap3_prm_vp_clear_txdone, omap2_prm_write_mod_reg]
  · have hm : (omap3_prm_irqs_get irq_id).vp_tranxdone_status < 2 ^ 32 := by
      rcases hid with h | h <;> subst h <;> decide
    simp only [omap3_prm_vp_check_txdone, omap2_prm_read_mod_reg, hwSet, w1c]
    rw [if_pos trivial]
    exact and_compl32_and_self _ _ hm

/-- Witness for C7: the VP transaction-done properties at the MPU rail with an
all-ones interrupt-status register. -/
theorem omap3_prm_vp_txdone_spec_witness :
    (omap3_prm_vp_check_txdone prmOnes OMAP3_PRM_IRQ_VDD_MPU_ID ≠ 0 ↔
      prmOnes.regs (OCP_MOD + OMAP3_PRM_IRQSTATUS_MPU_OFFSET)
        &&& (omap3_prm_irqs_get OMAP3_PRM_IRQ_VDD_MPU_ID).vp_tranxdone_status
        ≠ 0)
  ∧ (omap3_prm_vp_clear_txdone prmOnes OMAP3_PRM_IRQ_VDD_MPU_ID).writes
      = prmOnes.writes ++
      [(OCP_MOD + OMAP3_PRM_IRQSTATUS_MPU_OFFSET,
        (omap3_prm_irqs_get OMAP3_PRM_IRQ_VDD_MPU_ID).vp_tranxdone_status)]
  ∧ omap3_prm_vp_check_txdone
      (hwSet (omap3_prm_vp_clear_txdone prmOnes OMAP3_PRM_IRQ_VDD_MPU_ID)
        (OCP_MOD + OMAP3_PRM_IRQSTATUS_MPU_OFFSET)
        (w1c (prmOnes.regs (OCP_MOD + OMAP3_PRM_IRQSTATUS_MPU_OFFSET))
          (omap3_prm_irqs_get OMAP3_PRM_IRQ_VDD_MPU_ID).vp_tranxdone_status))
      OMAP3_PRM_IRQ_VDD_MPU_ID = 0 :=
  omap3_prm_vp_txdone_spec prmOnes OMAP3_PRM_IRQ_VDD_MPU_ID (Or.inl rfl)

/-- C8: for every encoded module value, the router dispatches the access to
the base region named by the selector extracted from the high bits (default
CM region, PRM region, or secondary CM region) at the 13-bit low-bits module
offset; for any unrecognized selector value the write mutates no register (all
three regions come back pointwise unchanged) and the read returns 0. -/
theorem cm_mod_reg_router_dispatch (s : PrcmState) (v : Nat)
    (module idx a : Int) :
    (cm_read_mod_reg s module idx =
      if cm_base_sel module = PRM_BASE then s.prm (cm_mod_off module + idx)
      else if cm_base_sel module = CM2_BASE then
        s.cm2 (cm_mod_off module + idx)
      else if cm_base_sel module = DEFAULT_BASE then
        s.cm (cm_mod_off module + idx)
      else 0)
  ∧ ((cm_write_mod_reg s v module idx).prm a =
      if cm_base_sel module = PRM_BASE ∧ a = cm_mod_off module + idx then v
      else s.prm a)
  ∧ ((cm_write_mod_reg s v module idx).cm2 a =
      if cm_base_sel module = CM2_BASE ∧ a = cm_mod_off module + idx then v
      else s.cm2 a)
  ∧ ((cm_write_mod_reg s v module idx).cm a =
      if cm_base_sel module = DEFAULT_BASE ∧ a = cm_mod_off module + idx then v
      else s.cm a) := by
  have e1 : PRM_BASE = 1 := rfl
  have e3 : CM2_BASE = 3 := rfl
  have e0 : DEFAULT_BASE = 0 := rfl
  refine ⟨rfl, ?_, ?_, ?_⟩
  all_goals
    simp only [cm_write_mod_reg, e1, e3, e0]
    by_cases h1 : cm_base_sel module = 1 <;>
      by_cases h3 : cm_base_sel module = 3 <;>
        by_cases h0 : cm_base_sel module = 0 <;>
          by_cases h2 : a = cm_mod_off module + idx <;>
            simp [h1, h3, h0, h2]

theorem deassert_poll_cond (prm_mod : Int) (st_shift : Nat) (hw : Nat → Nat)
    (t : PrmState) :
    (fun i =>
      (omap2_prm_read_mod_bits_shift
        (hwSet t (prm_mod + OMAP2_RM_RSTST) (hw i))
        prm_mod OMAP2_RM_RSTST (1 <<< st_shift)).getD 0 != 0)
      = fun i => (hw i).testBit st_shift := by
  funext i
  rw [read_mod_bits_shift_one]
  simp only [hwSet, Option.getD_some, if_pos rfl]
  exact toNat_bne_zero _

theorem deassert_hardreset_run (chip : Chip) (s : PrmState) (prm_mod : Int)
    (rst_shift st_shift : Nat) (hw : Nat → Nat)
    (hchip : (chip.cpu_is_omap24xx || chip.cpu_is_omap34xx) = true)
    (hasserted : (s.regs (prm_mod + OMAP2_RM_RSTCTRL)).testBit rst_shift
      = true) :
    omap2_prm_deassert_hardreset chip s prm_mod rst_shift st_shift hw
      = (if omap_test_timeout (fun i => (hw i).testBit st_shift)
            MAX_MODULE_HARDRESET_WAIT = MAX_MODULE_HARDRESET_WAIT
         then -EBUSY else 0,
         (omap2_prm_rmw_mod_reg_bits
           (omap2_prm_rmw_mod_reg_bits s 0xffffffff (1 <<< st_shift) prm_mod
             OMAP2_RM_RSTST).2 (1 <<< rst_shift) 0 prm_mod
           OMAP2_RM_RSTCTRL).2) := by
  have hguard : (omap2_prm_read_mod_bits_shift s prm_mod OMAP2_RM_RSTCTRL
      (1 <<< rst_shift)).getD 0 = 1 := by
    rw [read_mod_bits_shift_one, hasserted]
    rfl
  simp only [omap2_prm_deassert_hardreset, hchip, hguard, Bool.not_true,
    Bool.false_eq_true, if_false, one_ne_zero, ite_false]
  rw [deassert_poll_cond]

theorem deassert_state_shape (s : PrmState) (prm_mod : Int)
    (rst_shift st_shift : Nat) :
    (omap2_prm_rmw_mod_reg_bits
      (omap2_prm_rmw_mod_reg_bits s 0xffffffff (1 <<< st_shift) prm_mod
        OMAP2_RM_RSTST).2 (1 <<< rst_shift) 0 prm_mod
      OMAP2_RM_RSTCTRL).2.writes
      = s.writes ++
        [(prm_mod + OMAP2_RM_RSTST, 1 <<< st_shift),
         (prm_mod + OMAP2_RM_RSTCTRL,
           s.regs (prm_mod + OMAP2_RM_RSTCTRL) &&& compl32 (1 <<< rst_shift))]
  ∧ (omap2_prm_rmw_mod_reg_bits
      (omap2_prm_rmw_mod_reg_bits s 0xffffffff (1 <<< st_shift) prm_mod
        OMAP2_RM_RSTST).2 (1 <<< rst_shift) 0 prm_mod
      OMAP2_RM_RSTCTRL).2.regs (prm_mod + OMAP2_RM_RSTCTRL)
      = s.regs (prm_mod + OMAP2_RM_RSTCTRL) &&& compl32 (1 <<< rst_shift) := by
  have hne : (prm_mod + OMAP2_RM_RSTCTRL) ≠ (prm_mod + OMAP2_RM_RSTST) := by
    simp only [OMAP2_RM_RSTCTRL, OMAP2_RM_RSTST]
    omega
  constructor
  · simp [omap2_prm_rmw_mod_reg_bits, omap2_prm_write_mod_reg,
      omap2_prm_read_mod_reg, hne, compl32]
  · simp [omap2_prm_rmw_mod_reg_bits, omap2_prm_write_mod_reg,
      omap2_prm_read_mod_reg, hne, compl32]

theorem testBit_and_compl32_shiftLeft (v k : Nat) (hk : k < 32) :
    (v &&& compl32 (1 <<< k)).testBit k = false := by
  simp only [Nat.testBit_and, testBit_compl32]
  have h1 : (1 <<< k).testBit k = true := by
    rw [Nat.one_shiftLeft]
    simp
  rw [h1, decide_eq_true hk]
  simp

/-- C1: on a supported chip generation, when the reset-control bit is set and
the status bit becomes set within the poll budget,
`omap2_prm_deassert_hardreset` performs its register writes in order — the
status-acknowledgment write (value exactly the status bit) to the
reset-status register first, then the control-bit clear to the control
register — leaves the control bit cleared, and returns 0 (success). -/
theorem omap2_prm_deassert_hardreset_success_order (chip : Chip)
    (s : PrmState) (prm_mod : Int) (rst_shift st_shift : Nat) (hw : Nat → Nat)
    (hchip : (chip.cpu_is_omap24xx || chip.cpu_is_omap34xx) = true)
    (hrst : rst_shift < 32)
    (hasserted : (s.regs (prm_mod + OMAP2_RM_RSTCTRL)).testBit rst_shift
      = true)
    (hdone : ∃ i, i < MAX_MODULE_HARDRESET_WAIT
      ∧ (hw i).testBit st_shift = true) :
    (omap2_prm_deassert_hardreset chip s prm_mod rst_shift st_shift hw).1 = 0
  ∧ (omap2_prm_deassert_hardreset chip s prm_mod rst_shift st_shift
      hw).2.writes
      = s.writes ++
        [(prm_mod + OMAP2_RM_RSTST, 1 <<< st_shift),
         (prm_mod + OMAP2_RM_RSTCTRL,
           s.regs (prm_mod + OMAP2_RM_RSTCTRL) &&& compl32 (1 <<< rst_shift))]
  ∧ ((omap2_prm_deassert_hardreset chip s prm_mod rst_shift st_shift
      hw).2.regs (prm_mod + OMAP2_RM_RSTCTRL)).testBit rst_shift = false := by
  rw [deassert_hardreset_run chip s prm_mod rst_shift st_shift hw hchip
    hasserted]
  have hc : omap_test_timeout (fun i => (hw i).testBit st_shift)
      MAX_MODULE_HARDRESET_WAIT < MAX_MODULE_HARDRESET_WAIT :=
    omap_test_timeout_lt _ _ hdone
  refine ⟨?_, (deassert_state_shape s prm_mod rst_shift st_shift).1, ?_⟩
  · exact if_neg (Nat.ne_of_lt hc)
  · rw [(deassert_state_shape s prm_mod rst_shift st_shift).2]
    exact testBit_and_compl32_shiftLeft _ _ hrst

/-- Witness for C1: a successful deassert at a concrete chip, state and
hardware behaviour (status bit observed set at the first poll iteration). -/
theorem omap2_prm_deassert_hardreset_success_order_witness :
    (omap2_prm_deassert_hardreset chip34 prmRst3 0 3 5 (fun _ => 1 <<< 5)).1
      = 0
  ∧ (omap2_prm_deassert_hardreset chip34 prmRst3 0 3 5
      (fun _ => 1 <<< 5)).2.writes
      = prmRst3.writes ++
        [(0 + OMAP2_RM_RSTST, 1 <<< 5),
         (0 + OMAP2_RM_RSTCTRL,
           prmRst3.regs (0 + OMAP2_RM_RSTCTRL) &&& compl32 (1 <<< 3))]
  ∧ ((omap2_prm_deassert_hardreset chip34 prmRst3 0 3 5
      (fun _ => 1 <<< 5)).2.regs (0 + OMAP2_RM_RSTCTRL)).testBit 3 = false :=
  omap2_prm_deassert_hardreset_success_order chip34 prmRst3 0 3 5
    (fun _ => 1 <<< 5) (by decide) (by decide) (by decide)
    ⟨0, by decide, by decide⟩

/-- C3: on a supported chip generation, if the status bit never becomes set
within the fixed timeout budget, `omap2_prm_deassert_hardreset` returns
`-EBUSY`, and the reset-control bit has nevertheless been cleared — the
deassertion write (and the status-acknowledgment write before it) was issued
before polling began. -/
theorem omap2_prm_deassert_hardreset_timeout (chip : Chip) (s : PrmState)
    (prm_mod : Int) (rst_shift st_shift : Nat) (hw : Nat → Nat)
    (hchip : (chip.cpu_is_omap24xx || chip.cpu_is_omap34xx) = true)
    (hrst : rst_shift < 32)
    (hasserted : (s.regs (prm_mod + OMAP2_RM_RSTCTRL)).testBit rst_shift
      = true)
    (hnever : ∀ i, i < MAX_MODULE_HARDRESET_WAIT →
      (hw i).testBit st_shift = false) :
    (omap2_prm_deassert_hardreset chip s prm_mod rst_shift st_shift hw).1
      = -EBUSY
  ∧ (omap2_prm_deassert_hardreset chip s prm_mod rst_shift st_shift
      hw).2.writes
      = s.writes ++
        [(prm_mod + OMAP2_RM_RSTST, 1 <<< st_shift),
         (prm_mod + OMAP2_RM_RSTCTRL,
           s.regs (prm_mod + OMAP2_RM_RSTCTRL) &&& compl32 (1 <<< rst_shift))]
  ∧ ((omap2_prm_deassert_hardreset chip s prm_mod rst_shift st_shift
      hw).2.regs (prm_mod + OMAP2_RM_RSTCTRL)).testBit rst_shift = false := by
  rw [deassert_hardreset_run chip s prm_mod rst_shift st_shift hw hchip
    hasserted]
  have hc : omap_test_timeout (fun i => (hw i).testBit st_shift)
      MAX_MODULE_HARDRESET_WAIT = MAX_MODULE_HARDRESET_WAIT :=
    omap_test_timeout_eq _ _ hnever
  refine ⟨?_, (deassert_state_shape s prm_mod rst_shift st_shift).1, ?_⟩
  · exact if_pos hc
  · rw [(deassert_state_shape s prm_mod rst_shift st_shift).2]
    exact testBit_and_compl32_shiftLeft _ _ hrst

/-- Witness for C3: a timed-out deassert at a concrete chip and state, with a
hardware oracle that never sets the status bit. -/
theorem omap2_prm_deassert_hardreset_timeout_witness :
    (omap2_prm_deassert_hardreset chip34 prmRst3 0 3 5 (fun _ => 0)).1
      = -EBUSY
  ∧ (omap2_prm_deassert_hardreset chip34 prmRst3 0 3 5 (fun _ => 0)).2.writes
      = prmRst3.writes ++
        [(0 + OMAP2_RM_RSTST, 1 <<< 5),
         (0 + OMAP2_RM_RSTCTRL,
           prmRst3.regs (0 + OMAP2_RM_RSTCTRL) &&& compl32 (1 <<< 3))]
  ∧ ((omap2_prm_deassert_hardreset chip34 prmRst3 0 3 5
      (fun _ => 0)).2.regs (0 + OMAP2_RM_RSTCTRL)).testBit 3 = false :=
  omap2_prm_deassert_hardreset_timeout chip34 prmRst3 0 3 5 (fun _ => 0)
    (by decide) (by decide) (by decide) (fun i _ => Nat.zero_testBit 5)

/-- C10: in `omap2_prm_deassert_hardreset`, the status-clear step is an RMW
with mask `0xffffffff` and bits the single requested status bit, so the first
register write the call issues targets the reset-status register with value
exactly `1 <<< st_shift` — every bit other than the requested status bit is
written as 0, independently of the register's prior contents. -/
theorem omap2_prm_deassert_hardreset_status_write_exact (chip : Chip)
    (s : PrmState) (prm_mod : Int) (rst_shift st_shift : Nat) (hw : Nat → Nat)
    (hchip : (chip.cpu_is_omap24xx || chip.cpu_is_omap34xx) = true)
    (hasserted : (s.regs (prm_mod + OMAP2_RM_RSTCTRL)).testBit rst_shift
      = true) :
    ((omap2_prm_deassert_hardreset chip s prm_mod rst_shift st_shift
      hw).2.writes.drop s.writes.length).head?
      = some (prm_mod + OMAP2_RM_RSTST, 1 <<< st_shift) := by
  rw [deassert_hardreset_run chip s prm_mod rst_shift st_shift hw hchip
    hasserted]
  rw [(deassert_state_shape s prm_mod rst_shift st_shift).1]
  rw [List.drop_left]
  rfl

/-- Witness for C10: the first write of a concrete deassert call is the bare
status bit. -/
theorem omap2_prm_deassert_hardreset_status_write_exact_witness :
    ((omap2_prm_deassert_hardreset chip34 prmRst3 0 3 5
      (fun _ => 0)).2.writes.drop prmRst3.writes.length).head?
      = some (0 + OMAP2_RM_RSTST, 1 <<< 5) :=
  omap2_prm_deassert_hardreset_status_write_exact chip34 prmRst3 0 3 5
    (fun _ => 0) (by decide) (by decide)
